import Mathlib

/-!
Shallow embedding of the Player Queue Controller of the music-assistant
repository (src/music_assistant/server/controllers/player_queue.py) together
with the Player state model (src/music_assistant/common/models/player.py),
and proofs about the claims of the natural-language specification.

Modelling conventions:
- Python machine state that persists across an exception is made explicit:
  every stateful operation returns an OpResult carrying the state and the
  effects produced so far plus the exception that escaped, if any
  (a raised exception does not roll back prior mutations of the
  controller dictionaries).
- wall-clock reads (time.time()) are passed in as an explicit rational
  parameter named now; Python floats are modelled as rationals.
- Python values of type int-or-str (queue indices) are modelled as
  Nat or String; the value None is the surrounding Option's none.
- external I/O (music providers, cache, event bus, asyncio tasks) is
  modelled as emitted effects; externally fetched data (dynamic tracks,
  shuffle entropy) is passed in as function parameters.
-/

namespace MusicAssistant

/-- Playback state of a player, from common/models/enums.py (the enums module
is not present under src/; constructors follow the names used by the
controller source: IDLE, PLAYING, PAUSED, OFF). -/
inductive PlayerState where
  | idle
  | playing
  | paused
  | off
deriving DecidableEq

/-- Repeat mode of a queue (OFF / ONE / ALL). -/
inductive RepeatMode where
  | off
  | one
  | all
deriving DecidableEq

/-- Enqueue options accepted by play_media (PLAY, REPLACE, NEXT,
REPLACE_NEXT, ADD). -/
inductive QueueOption where
  | play
  | replace
  | next
  | replaceNext
  | add
deriving DecidableEq

/-- Media types relevant to the controller. -/
inductive MediaType where
  | artist
  | album
  | playlist
  | track
  | radio
deriving DecidableEq

/-- Event types emitted by the controller
(QUEUE_UPDATED, QUEUE_TIME_UPDATED, QUEUE_ITEMS_UPDATED). -/
inductive EventType where
  | queueUpdated
  | queueTimeUpdated
  | queueItemsUpdated
deriving DecidableEq

/-- Python exceptions raised by the embedded code paths. -/
inductive PyErr where
  | typeError
  | indexError
  | fileNotFound
  | assertionError
  | queueEmpty
  | mediaNotFound
deriving DecidableEq

/-- A Python value of static type int-or-str, as used for queue indices
(play_index, current_index, index_in_buffer). -/
abbrev IndexArg := Nat ⊕ String

/-- Minimal media-item descriptor; the media_items module is not under src/,
so this carries exactly the attributes the controller reads: item_id,
provider, media_type, available, duration. -/
structure MediaItem where
  item_id : String
  provider : String
  media_type : MediaType
  available : Bool
  duration : Option Nat
deriving DecidableEq

/-- Modelled from the spec: the QueueItem class (common/models/queue_item.py)
is not under src/. Per the spec a QueueItem carries a stable item
identifier, an optional duration, a sort_index and the underlying media
reference. The controller source reads the stable identifier both as
queue_item_id (get_item, index_by_id) and as item_id (resume); both
accesses denote this single identifier field. -/
structure QueueItem where
  queue_item_id : String
  duration : Option Nat
  sort_index : ℤ
  media_item : MediaItem
deriving DecidableEq

/-- The PlayerQueue dataclass (common/models/player_queue.py is not under
src/); fields follow the controller's reads/writes and the spec's Player
Queue data model. current_index and index_in_buffer hold whatever Python
value the controller last assigned (int, str or None). -/
structure PlayerQueue where
  queue_id : String
  active : Bool
  display_name : String
  available : Bool
  items : Nat
  current_index : Option IndexArg
  index_in_buffer : Option IndexArg
  elapsed_time : ℚ
  elapsed_time_last_updated : ℚ
  state : PlayerState
  repeat_mode : RepeatMode
  shuffle_enabled : Bool
  radio_source : List MediaItem
  announcement_in_progress : Bool
  current_item : Option QueueItem
  next_item : Option QueueItem
deriving DecidableEq

/-- The Player model (common/models/player.py), restricted to the fields the
queue controller reads. display_name is kept as a stored attribute
(modelled from the spec's Zone display-name field; the dataclass in src/
stores the raw name). -/
structure Player where
  player_id : String
  display_name : String
  available : Bool
  elapsed_time : ℚ
  elapsed_time_last_updated : ℚ
  current_url : String
  state : PlayerState
deriving DecidableEq

/-- Per-queue controller state: the PlayerQueue object, the item list
(self.queue_items entry) and the last emitted snapshot
(self.prev_states entry). The controller keys these by queue_id; the
embedding models one queue. -/
structure QueueState where
  queue : PlayerQueue
  items : List QueueItem
  prev_state : Option PlayerQueue
deriving DecidableEq

/-- Player.corrected_elapsed_time (common/models/player.py lines 70-75):
if the state is PLAYING return elapsed_time plus the wall time passed
since the capture timestamp, otherwise return elapsed_time unchanged. -/
def corrected_elapsed_time (p : Player) (now : ℚ) : ℚ :=
  if p.state = PlayerState.playing then
    p.elapsed_time + (now - p.elapsed_time_last_updated)
  else
    p.elapsed_time

/-- Python int() applied to a float: truncation toward zero. -/
def pyInt (q : ℚ) : ℤ :=
  if 0 ≤ q then ⌊q⌋ else -⌊-q⌋

/-- Character-list helper: the first list starts the second. -/
def charsStart : List Char → List Char → Bool
  | [], _ => true
  | _ :: _, [] => false
  | a :: as, b :: bs => a = b && charsStart as bs

/-- Character-list helper: the first list occurs inside the second. -/
def charsHas (needle : List Char) : List Char → Bool
  | [] => charsStart needle []
  | b :: bs => charsStart needle (b :: bs) || charsHas needle bs

/-- Python substring test (needle in haystack). -/
def pyIn (needle haystack : String) : Bool :=
  charsHas needle.data haystack.data

/-- Python truthiness of an int-or-str-or-None index value. -/
def truthyIdx : Option IndexArg → Bool
  | none => false
  | some (Sum.inl n) => n ≠ 0
  | some (Sum.inr s) => s ≠ ""

/-- Python expression a or b or 0 over index values. -/
def pyOrIdx (a b : Option IndexArg) : IndexArg :=
  if truthyIdx a then a.getD (Sum.inl 0)
  else if truthyIdx b then b.getD (Sum.inl 0)
  else Sum.inl 0

/-- Python list slice l[:n] with a possibly negative bound. -/
def pyTake (l : List QueueItem) (n : ℤ) : List QueueItem :=
  if n < 0 then l.take ((l.length + n).toNat) else l.take n.toNat

/-- Python list slice l[n:] with a possibly negative bound. -/
def pyDrop (l : List QueueItem) (n : ℤ) : List QueueItem :=
  if n < 0 then l.drop ((l.length + n).toNat) else l.drop n.toNat

/-- Python list.insert with a possibly out-of-range or negative index. -/
def pyInsert (l : List QueueItem) (n : ℤ) (a : QueueItem) : List QueueItem :=
  let i := if n < 0 then (l.length + n).toNat else min n.toNat l.length
  l.take i ++ a :: l.drop i

/-- get_item (player_queue.py lines 557-570): resolve a queue item by
numeric index (only when the index is in range), by item id (first
match), or return none for the value None. -/
def get_item (items : List QueueItem) : Option IndexArg → Option QueueItem
  | none => none
  | some (Sum.inl i) => if items.length > i then items[i]? else none
  | some (Sum.inr iid) => items.find? (fun x => x.queue_item_id == iid)

/-- index_by_id (player_queue.py lines 572-578): index of the first item
with the given id, or none. -/
def index_by_id (items : List QueueItem) (queue_item_id : String) : Option Nat :=
  items.findIdx? (fun x => x.queue_item_id == queue_item_id)

/-- get_next_index (player_queue.py lines 580-601). Repeat ONE without skip
returns the current index unchanged (whatever Python value it holds);
repeat ALL at the last index of a non-empty list wraps to 0; a current
index of None yields 0; otherwise the successor. A str current index
reaches the addition and raises TypeError. -/
def get_next_index (rm : RepeatMode) (items : List QueueItem)
    (cur_index : Option IndexArg) (is_skip : Bool) :
    Except PyErr (Option IndexArg) :=
  if rm = RepeatMode.one ∧ is_skip = false then Except.ok cur_index
  else if rm = RepeatMode.all ∧ items ≠ [] ∧
      cur_index = some (Sum.inl (items.length - 1)) then
    Except.ok (some (Sum.inl 0))
  else
    match cur_index with
    | none => Except.ok (some (Sum.inl 0))
    | some (Sum.inl i) => Except.ok (some (Sum.inl (i + 1)))
    | some (Sum.inr _) => Except.error PyErr.typeError

/-- Observable side effects of controller operations: provider transport
commands, emitted events, cache writes, warnings and scheduled tasks. -/
inductive Effect where
  | playMedia (item : QueueItem) (seek_position : ℚ) (fade_in : Bool)
  | event (t : EventType)
  | cacheSetItems
  | cacheSetState
  | warning
  | fillRadioTask
deriving DecidableEq

/-- Result of a controller operation: the state after it ran, the effects it
produced, and the exception that escaped it, if any (mutations made
before the raise persist, as in the Python source). -/
structure OpResult where
  state : QueueState
  effects : List Effect
  err : Option PyErr
deriving DecidableEq

/-- update_items (player_queue.py lines 550-553) followed by signal_update
with items_changed (lines 603-626): store the new list, emit
QUEUE_ITEMS_UPDATED, write the items cache, emit QUEUE_UPDATED, write the
state cache. -/
def update_items (st : QueueState) (new_items : List QueueItem) : OpResult :=
  { state := { st with items := new_items },
    effects := [Effect.event EventType.queueItemsUpdated, Effect.cacheSetItems,
      Effect.event EventType.queueUpdated, Effect.cacheSetState],
    err := none }

/-- load (player_queue.py lines 516-548): keep the first insert_at_index
existing items; when keep_remaining, append the slice of the NEW items
from insert_at_index on (this is what line 540 does); bump sort_index of
the appended batch; optionally shuffle it (random.sample is the sample
parameter); store via update_items. -/
def load (st : QueueState) (queue_items : List QueueItem) (insert_at_index : ℤ)
    (keep_remaining : Bool) (shuffle : Bool)
    (sample : List QueueItem → List QueueItem) : OpResult :=
  let prev_items := pyTake st.items insert_at_index
  let next_items := if keep_remaining then pyDrop queue_items insert_at_index else []
  let next_items := next_items.enum.map
    (fun p => { p.2 with sort_index := p.2.sort_index + insert_at_index + p.1 })
  let next_items := if shuffle then sample next_items else next_items
  update_items st (prev_items ++ next_items)

/-- clear (player_queue.py lines 239-246): drop the radio source, then, when
the queue state is neither IDLE nor OFF, call self.stop() - which is
missing its required queue_id argument and raises TypeError before the
item list is touched; otherwise store the empty list. -/
def clear (st : QueueState) : OpResult :=
  let st := { st with queue := { st.queue with radio_source := [] } }
  if st.queue.state ≠ PlayerState.idle ∧ st.queue.state ≠ PlayerState.off then
    { state := st, effects := [], err := some PyErr.typeError }
  else
    update_items st []

/-- play_index (player_queue.py lines 385-412): warn and return while an
announcement is in progress; resolve the argument via get_item and raise
FileNotFoundError when nothing resolves; otherwise assign the RAW
argument to current_index and index_in_buffer and dispatch the
provider's cmd_play_media for the resolved item. -/
def play_index (st : QueueState) (index : Option IndexArg)
    (seek_position : ℚ) (fade_in : Bool) : OpResult :=
  if st.queue.announcement_in_progress then
    { state := st, effects := [Effect.warning], err := none }
  else
    match get_item st.items index with
    | none => { state := st, effects := [], err := some PyErr.fileNotFound }
    | some queue_item =>
      { state := { st with queue :=
          { st.queue with current_index := index, index_in_buffer := index } },
        effects := [Effect.playMedia queue_item seek_position fade_in],
        err := none }

/-- next (player_queue.py lines 304-314): compute the next index with
is_skip, return silently if it is None (get_next_index never returns
None here), else funnel through play_index. -/
def next (st : QueueState) : OpResult :=
  match get_next_index st.queue.repeat_mode st.items st.queue.current_index true with
  | Except.error e => { state := st, effects := [], err := some e }
  | Except.ok none => { state := st, effects := [], err := none }
  | Except.ok (some ni) => play_index st (some ni) 0 false

/-- The first guard of resume (player_queue.py lines 364-369): current item
and next item present, current item's duration truthy, and the stored
elapsed position strictly greater than 90 percent of that duration (the
float literal 0.9 is modelled as the rational 9/10). -/
def resumeSkipCond (q : PlayerQueue) : Bool :=
  match q.current_item, q.next_item with
  | some ri, some _ =>
    match ri.duration with
    | some d => d ≠ 0 ∧ q.elapsed_time > (d : ℚ) * (9 / 10)
    | none => false
  | _, _ => false

/-- resume (player_queue.py lines 352-383): when the current item is more
than 90 percent played and a next item exists, target the next item at
position 0; else when there is no current index but items exist, target
item 0 at position 0; else target the stored current item at the stored
elapsed position. A selected target is played through play_index by its
item id, with the position snapped to 0 unless it exceeds 10 and fade_in
exactly when the snapped position is positive; no target raises
QueueEmpty. -/
def resume (st : QueueState) : OpResult :=
  let q := st.queue
  let sel : Option QueueItem × ℚ :=
    if resumeSkipCond q then (q.next_item, 0)
    else if q.current_index = none ∧ st.items ≠ [] then
      (get_item st.items (some (Sum.inl 0)), 0)
    else (q.current_item, q.elapsed_time)
  match sel.1 with
  | some resume_item =>
    let resume_pos := if sel.2 > 10 then sel.2 else 0
    play_index st (some (Sum.inr resume_item.queue_item_id)) resume_pos
      (decide (resume_pos > 0))
  | none => { state := st, effects := [], err := some PyErr.queueEmpty }

/-- seek (player_queue.py lines 337-350): four assert statements guard the
command - a current item is loaded, its media type is TRACK, its
duration is truthy (neither None nor 0) and the requested position is
strictly below that duration; then play_index on the stored
current_index with the new position. -/
def seek (st : QueueState) (position : ℚ) : OpResult :=
  match st.queue.current_item with
  | none => { state := st, effects := [], err := some PyErr.assertionError }
  | some ci =>
    if ci.media_item.media_type ≠ MediaType.track then
      { state := st, effects := [], err := some PyErr.assertionError }
    else
      match ci.duration with
      | none => { state := st, effects := [], err := some PyErr.assertionError }
      | some d =>
        if d = 0 then { state := st, effects := [], err := some PyErr.assertionError }
        else if ¬ position < (d : ℚ) then
          { state := st, effects := [], err := some PyErr.assertionError }
        else play_index st st.queue.current_index position false

/-- move_item (player_queue.py lines 191-220): resolve the id to an index
(an unknown id makes the guard compare None and raise TypeError, as does
an index_in_buffer that is None or a str); an index at or before
index_in_buffer raises IndexError; then compute the target index
(pos_shift 0 targets right after the playing index), silently return
when it falls before the current index or past the end, else pop and
reinsert and store the result. A current_index holding a non-empty str
raises TypeError in every body path that reaches it. -/
def move_item (st : QueueState) (queue_item_id : String) (pos_shift : ℤ) : OpResult :=
  match index_by_id st.items queue_item_id with
  | none => { state := st, effects := [], err := some PyErr.typeError }
  | some item_index =>
    match st.queue.index_in_buffer with
    | none => { state := st, effects := [], err := some PyErr.typeError }
    | some (Sum.inr _) => { state := st, effects := [], err := some PyErr.typeError }
    | some (Sum.inl buf) =>
      if item_index ≤ buf then
        { state := st, effects := [], err := some PyErr.indexError }
      else
        let cur0 : Except PyErr ℤ :=
          match st.queue.current_index with
          | some (Sum.inl n) => Except.ok (n : ℤ)
          | some (Sum.inr s) => if s = "" then Except.ok 0 else Except.error PyErr.typeError
          | none => Except.ok 0
        match cur0 with
        | Except.error e => { state := st, effects := [], err := some e }
        | Except.ok n =>
          let new_index : ℤ :=
            if pos_shift = 0 ∧ st.queue.state = PlayerState.playing then n + 1
            else if pos_shift = 0 then n
            else (item_index : ℤ) + pos_shift
          if new_index < n ∨ new_index > (st.items.length : ℤ) then
            { state := st, effects := [], err := none }
          else
            match st.items[item_index]? with
            | none => { state := st, effects := [], err := some PyErr.indexError }
            | some itm =>
              let popped := st.items.take item_index ++ st.items.drop (item_index + 1)
              update_items st (pyInsert popped new_index itm)

/-- delete_item (player_queue.py lines 222-237): a str argument reaches
self.index_by_id(item_id_or_index), a call missing its required second
argument, and raises TypeError; a numeric index at or before
index_in_buffer is ignored with a warning (an index_in_buffer of None or
str makes the comparison raise TypeError); otherwise list.pop(index)
(IndexError when out of range) and store the result. -/
def delete_item (st : QueueState) (item_id_or_index : IndexArg) : OpResult :=
  match item_id_or_index with
  | Sum.inr _ => { state := st, effects := [], err := some PyErr.typeError }
  | Sum.inl item_index =>
    match st.queue.index_in_buffer with
    | none => { state := st, effects := [], err := some PyErr.typeError }
    | some (Sum.inr _) => { state := st, effects := [], err := some PyErr.typeError }
    | some (Sum.inl buf) =>
      if item_index ≤ buf then
        { state := st, effects := [Effect.warning], err := none }
      else if st.items.length ≤ item_index then
        { state := st, effects := [], err := some PyErr.indexError }
      else
        update_items st (st.items.take item_index ++ st.items.drop (item_index + 1))

/-- play_media (player_queue.py lines 68-189), modelled from the point where
the media references have been resolved and wrapped: the queue_items
parameter stands for the list built on lines 138-140 from the resolved,
available tracks (resolution of uris/artists/albums/playlists and radio
seeding is provider I/O outside this embedding). Warn and return during
an announcement; clear a finished queue (truthy current_index at or past
the last position); drop the radio source unless the option is ADD, PLAY
or NEXT; then dispatch on the option. REPLACE awaits the sync clear()
(TypeError after the clear ran); NEXT awaits the sync load() (TypeError
after the load ran); REPLACE_NEXT and PLAY and ADD call load
synchronously; PLAY then plays the insertion index. -/
def play_media (st : QueueState) (queue_items : List QueueItem)
    (option : QueueOption) (sample : List QueueItem → List QueueItem) : OpResult :=
  if st.queue.announcement_in_progress then
    { state := st, effects := [Effect.warning], err := none }
  else
    let precheck : Except PyErr QueueState :=
      match st.queue.current_index with
      | some (Sum.inl n) =>
        if n ≠ 0 ∧ (n : ℤ) ≥ (st.items.length : ℤ) - 1 then
          Except.ok { st with
            queue := { st.queue with current_index := none }, items := [] }
        else Except.ok st
      | some (Sum.inr s) =>
        if s ≠ "" then Except.error PyErr.typeError else Except.ok st
      | none => Except.ok st
    match precheck with
    | Except.error e => { state := st, effects := [], err := some e }
    | Except.ok st1 =>
      let st1 :=
        if option ≠ QueueOption.add ∧ option ≠ QueueOption.play ∧
            option ≠ QueueOption.next then
          { st1 with queue := { st1.queue with radio_source := [] } }
        else st1
      let cur_index := pyOrIdx st1.queue.index_in_buffer st1.queue.current_index
      let shuffle := st1.queue.shuffle_enabled ∧ queue_items.length ≥ 5
      match option with
      | QueueOption.replace =>
        let r := clear st1
        match r.err with
        | some e => { state := r.state, effects := r.effects, err := some e }
        | none => { state := r.state, effects := r.effects, err := some PyErr.typeError }
      | QueueOption.next =>
        match cur_index with
        | Sum.inr _ => { state := st1, effects := [], err := some PyErr.typeError }
        | Sum.inl n =>
          let r := load st1 queue_items ((n : ℤ) + 1) true shuffle sample
          { state := r.state, effects := r.effects, err := some PyErr.typeError }
      | QueueOption.replaceNext =>
        match cur_index with
        | Sum.inr _ => { state := st1, effects := [], err := some PyErr.typeError }
        | Sum.inl n => load st1 queue_items ((n : ℤ) + 1) false shuffle sample
      | QueueOption.play =>
        match cur_index with
        | Sum.inr _ => { state := st1, effects := [], err := some PyErr.typeError }
        | Sum.inl n =>
          let r := load st1 queue_items (n : ℤ) true shuffle sample
          match r.err with
          | some e => { state := r.state, effects := r.effects, err := some e }
          | none =>
            let r2 := play_index r.state (some (Sum.inl n)) 0 false
            { state := r2.state, effects := r.effects ++ r2.effects, err := r2.err }
      | QueueOption.add =>
        match (if st1.queue.shuffle_enabled then
            (match cur_index with
             | Sum.inr _ => Except.error PyErr.typeError
             | Sum.inl n => Except.ok ((n : ℤ) + 1))
          else Except.ok (st1.items.length : ℤ)) with
        | Except.error e => { state := st1, effects := [], err := some e }
        | Except.ok insert_at =>
          load st1 queue_items insert_at true st1.queue.shuffle_enabled sample

/-- Modelled from the spec: QueueItem.from_media_item (the queue_item module
is not under src/) wraps a track as a QueueItem carrying the media
reference, its stable identifier and duration, with sort_index 0. -/
def QueueItem.from_media_item (m : MediaItem) : QueueItem :=
  { queue_item_id := m.item_id, duration := m.duration, sort_index := 0,
    media_item := m }

/-- The fetch loop of fill_radio_tracks (player_queue.py lines 633-642):
accumulate dynamic tracks per seed, stopping once at least 50 tracks
were collected. -/
def fill_radio_collect (dyn : MediaItem → List MediaItem) :
    List MediaItem → List MediaItem → List MediaItem
  | [], acc => acc
  | seed :: rest, acc =>
    let acc := acc ++ dyn seed
    if acc.length ≥ 50 then acc else fill_radio_collect dyn rest acc

/-- fill_radio_tracks (player_queue.py lines 628-651): assert a non-empty
radio source, fetch dynamic tracks over the shuffled seeds (the shuffle
is the sample parameter, the provider fetch the dyn parameter), wrap the
available ones, and load them with insert_at_index one less than the
current item-list length. -/
def fill_radio_tracks (st : QueueState) (sample : List MediaItem → List MediaItem)
    (dyn : MediaItem → List MediaItem) : OpResult :=
  if st.queue.radio_source = [] then
    { state := st, effects := [], err := some PyErr.assertionError }
  else
    let tracks := fill_radio_collect dyn (sample st.queue.radio_source) []
    let queue_items := (tracks.filter (fun x => x.available)).map QueueItem.from_media_item
    load st queue_items ((st.items.length : ℤ) - 1) true false (fun l => l)

/-- One field of the snapshot diff: the field name when the values differ. -/
def fieldDiff {α : Type} [DecidableEq α] (name : String) (a b : α) : List String :=
  if a = b then [] else [name]

/-- Modelled from the spec: get_changed_keys (common/helpers/util.py is not
under src/) diffs two queue snapshots at field granularity and returns
the names of the fields whose values differ; to_dict serializes every
PlayerQueue field. -/
def queueDiff (o n : PlayerQueue) : List String :=
  fieldDiff "queue_id" o.queue_id n.queue_id ++
  fieldDiff "active" o.active n.active ++
  fieldDiff "display_name" o.display_name n.display_name ++
  fieldDiff "available" o.available n.available ++
  fieldDiff "items" o.items n.items ++
  fieldDiff "current_index" o.current_index n.current_index ++
  fieldDiff "index_in_buffer" o.index_in_buffer n.index_in_buffer ++
  fieldDiff "elapsed_time" o.elapsed_time n.elapsed_time ++
  fieldDiff "elapsed_time_last_updated" o.elapsed_time_last_updated
    n.elapsed_time_last_updated ++
  fieldDiff "state" o.state n.state ++
  fieldDiff "repeat_mode" o.repeat_mode n.repeat_mode ++
  fieldDiff "shuffle_enabled" o.shuffle_enabled n.shuffle_enabled ++
  fieldDiff "radio_source" o.radio_source n.radio_source ++
  fieldDiff "announcement_in_progress" o.announcement_in_progress
    n.announcement_in_progress ++
  fieldDiff "current_item" o.current_item n.current_item ++
  fieldDiff "next_item" o.next_item n.next_item

/-- All snapshot field names: the diff against an absent previous snapshot. -/
def allQueueKeys : List String :=
  ["queue_id", "active", "display_name", "available", "items", "current_index",
   "index_in_buffer", "elapsed_time", "elapsed_time_last_updated", "state",
   "repeat_mode", "shuffle_enabled", "radio_source", "announcement_in_progress",
   "current_item", "next_item"]

/-- get_changed_keys applied to the previous snapshot (all keys when there is
none) and the new snapshot. -/
def changedKeys : Option PlayerQueue → PlayerQueue → List String
  | none, _ => allQueueKeys
  | some o, n => queueDiff o n

/-- Python set equality of two key lists. -/
def listSetEq (a b : List String) : Bool :=
  a.all (fun x => b.contains x) && b.all (fun x => a.contains x)

/-- The queue recomputation of on_player_update (player_queue.py lines
446-465): set active from the stream-url tag, copy display name and
availability, count items, and - when active - copy the player state,
store the truncated corrected elapsed time, stamp the capture time, and
resolve current and next item (get_next_index raises TypeError on a str
current_index, after the preceding assignments took effect); when not
active force IDLE and clear both items. Returns the recomputed queue and
the escaped exception, if any. -/
def opu_compute (st : QueueState) (p : Player) (now : ℚ) :
    PlayerQueue × Option PyErr :=
  let q1 := { st.queue with
    active := pyIn ("/" ++ st.queue.queue_id ++ "/") p.current_url,
    display_name := p.display_name,
    available := p.available,
    items := st.items.length }
  if q1.active then
    let q2 := { q1 with
      state := p.state,
      elapsed_time := ((pyInt (corrected_elapsed_time p now) : ℤ) : ℚ),
      elapsed_time_last_updated := now,
      current_item := get_item st.items q1.current_index }
    match get_next_index q1.repeat_mode st.items q1.current_index false with
    | Except.error e => (q2, some e)
    | Except.ok ni => ({ q2 with next_item := get_item st.items ni }, none)
  else
    ({ q1 with state := PlayerState.idle, current_item := none, next_item := none },
      none)

/-- The diff-and-emit tail of on_player_update (player_queue.py lines
467-488): store the new snapshot, diff against the previous one, return
silently when nothing changed; emit QUEUE_TIME_UPDATED when elapsed_time
changed, else QUEUE_UPDATED unless exactly the two elapsed fields
changed; when current_index changed and a radio source is present,
compare current_index against length minus 5 (TypeError when it is None
or a str) and schedule the radio fill task when due. -/
def opu_emit (st : QueueState) (q : PlayerQueue) : OpResult :=
  let st1 : QueueState := { st with queue := q, prev_state := some q }
  let changed := changedKeys st.prev_state q
  if changed = [] then { state := st1, effects := [], err := none }
  else
    let evs :=
      if changed.contains "elapsed_time" then [Effect.event EventType.queueTimeUpdated]
      else if ¬ listSetEq changed ["elapsed_time", "elapsed_time_last_updated"] then
        [Effect.event EventType.queueUpdated]
      else []
    if changed.contains "current_index" ∧ q.radio_source ≠ [] then
      match q.current_index with
      | some (Sum.inl n) =>
        if (n : ℤ) ≥ (st.items.length : ℤ) - 5 then
          { state := st1, effects := evs ++ [Effect.fillRadioTask], err := none }
        else { state := st1, effects := evs, err := none }
      | _ => { state := st1, effects := evs, err := some PyErr.typeError }
    else { state := st1, effects := evs, err := none }

/-- on_player_update (player_queue.py lines 441-488) for a registered queue:
recompute the queue projection from the player report, then diff, emit
and schedule. On a recompute exception the partially mutated queue is
kept and nothing is emitted. -/
def on_player_update (st : QueueState) (p : Player) (now : ℚ) : OpResult :=
  match opu_compute st p now with
  | (q, some e) => { state := { st with queue := q }, effects := [], err := some e }
  | (q, none) => opu_emit st q

/-! Concrete fixtures used by the evaluation theorems and witnesses. -/

/-- A library media item fixture. -/
def mItem (iid : String) (mt : MediaType) (dur : Option Nat) : MediaItem :=
  { item_id := iid, provider := "library", media_type := mt, available := true,
    duration := dur }

/-- A track queue-item fixture. -/
def qItem (iid : String) (dur : Option Nat) : QueueItem :=
  { queue_item_id := iid, duration := dur, sort_index := 0,
    media_item := mItem iid MediaType.track dur }

/-- A quiescent queue fixture: idle, nothing buffered, no announcement. -/
def baseQueue : PlayerQueue :=
  { queue_id := "q1", active := true, display_name := "Q", available := true,
    items := 0, current_index := none, index_in_buffer := none,
    elapsed_time := 0, elapsed_time_last_updated := 0,
    state := PlayerState.idle, repeat_mode := RepeatMode.off,
    shuffle_enabled := false, radio_source := [],
    announcement_in_progress := false, current_item := none, next_item := none }

def itemA : QueueItem := qItem "a" (some 180)

def itemB : QueueItem := qItem "b" (some 200)

def itemC : QueueItem := qItem "c" (some 210)

def itemX : QueueItem := qItem "x" (some 240)

/-! Theorems settling the claims. -/

/-- Claim C9: corrected elapsed time is derived, never stored: when PLAYING
it equals the stored elapsed time plus the wall time since the capture
timestamp, and in every other state it equals the stored elapsed time;
stored elapsed 30 captured at T yields 35 at T+5 when PLAYING and
exactly 30 when PAUSED at any evaluation time. -/
theorem c9_corrected_elapsed_time :
    (∀ (p : Player) (now : ℚ),
      corrected_elapsed_time p now =
        if p.state = PlayerState.playing then
          p.elapsed_time + (now - p.elapsed_time_last_updated)
        else p.elapsed_time)
    ∧ (∀ t : ℚ, corrected_elapsed_time
        { player_id := "p", display_name := "P", available := true,
          elapsed_time := 30, elapsed_time_last_updated := t,
          current_url := "", state := PlayerState.playing } (t + 5) = 35)
    ∧ (∀ t u : ℚ, corrected_elapsed_time
        { player_id := "p", display_name := "P", available := true,
          elapsed_time := 30, elapsed_time_last_updated := t,
          current_url := "", state := PlayerState.paused } u = 30) := by
  refine ⟨fun p now => rfl, fun t => ?_, fun t u => rfl⟩
  simp only [corrected_elapsed_time]
  norm_num

/-- Claim C2: get_next_index is a pure function of (repeat_mode,
current_index, item_count, is_skip): repeat ONE without skip returns the
current index unchanged; repeat ALL at the last index of a non-empty
list returns 0; otherwise it returns the successor; in particular the
three documented examples hold on a 3-item list. -/
theorem c2_get_next_index :
    (∀ (rm : RepeatMode) (items : List QueueItem) (i : ℕ) (is_skip : Bool),
      get_next_index rm items (some (Sum.inl i)) is_skip =
        if rm = RepeatMode.one ∧ is_skip = false then Except.ok (some (Sum.inl i))
        else if rm = RepeatMode.all ∧ items ≠ [] ∧ i = items.length - 1 then
          Except.ok (some (Sum.inl 0))
        else Except.ok (some (Sum.inl (i + 1))))
    ∧ get_next_index RepeatMode.all [itemA, itemB, itemC] (some (Sum.inl 2)) false
        = Except.ok (some (Sum.inl 0))
    ∧ get_next_index RepeatMode.one [itemA, itemB, itemC] (some (Sum.inl 1)) false
        = Except.ok (some (Sum.inl 1))
    ∧ get_next_index RepeatMode.off [itemA, itemB, itemC] (some (Sum.inl 1)) false
        = Except.ok (some (Sum.inl 2)) := by
  refine ⟨?_, rfl, rfl, rfl⟩
  intro rm items i is_skip
  simp only [get_next_index, Option.some.injEq, Sum.inl.injEq]

/-- The state for the C1 failing input: two items, item 0 current, nothing
buffered, idle, shuffle off, no announcement. -/
def c1State : QueueState :=
  { queue := { baseQueue with current_index := some (Sum.inl 0) },
    items := [itemA, itemB], prev_state := none }

/-- Claim C1 (code bug): evaluated at the failing input, play_media with
option NEXT and one new item keeps only the one-item prefix of the two
existing items (load appends a slice of the NEW items where its own
comment says it appends the old remaining items) and then raises
TypeError awaiting the synchronous load - the resulting list has length
1 where the claim requires 2+1=3; play_media with option REPLACE clears
the queue and raises TypeError awaiting the synchronous clear, leaving
the item list empty instead of equal to the new items. -/
theorem c1_play_media_eval :
    (play_media c1State [itemX] QueueOption.next (fun l => l)).state.items = [itemA]
    ∧ (play_media c1State [itemX] QueueOption.next (fun l => l)).err
        = some PyErr.typeError
    ∧ (play_media c1State [itemX] QueueOption.next (fun l => l)).state.items.length
        ≠ c1State.items.length + [itemX].length
    ∧ (play_media c1State [itemX] QueueOption.replace (fun l => l)).state.items = []
    ∧ (play_media c1State [itemX] QueueOption.replace (fun l => l)).err
        = some PyErr.typeError
    ∧ (play_media c1State [itemX] QueueOption.replace (fun l => l)).state.items
        ≠ [itemX] := by
  refine ⟨rfl, rfl, by decide, rfl, rfl, by decide⟩

/-- The state for the C4 failing input: two items, no announcement. -/
def c4State : QueueState :=
  { queue := baseQueue, items := [itemA, itemB], prev_state := none }

/-- Claim C4 (code bug): play_index addressed by item id stores the raw id
string into current_index and index_in_buffer instead of the numeric
position 1 of the resolved item (it does dispatch the provider play
command for the right item), and an argument resolving to no item raises
FileNotFoundError (the spec's ItemNotFound). -/
theorem c4_play_index_eval :
    ((play_index c4State (some (Sum.inr "b")) 0 false).err = none
      ∧ (play_index c4State (some (Sum.inr "b")) 0 false).state.queue.current_index
          = some (Sum.inr "b")
      ∧ (play_index c4State (some (Sum.inr "b")) 0 false).state.queue.index_in_buffer
          = some (Sum.inr "b")
      ∧ (play_index c4State (some (Sum.inr "b")) 0 false).state.queue.current_index
          ≠ some (Sum.inl 1)
      ∧ (play_index c4State (some (Sum.inr "b")) 0 false).effects
          = [Effect.playMedia itemB 0 false])
    ∧ (play_index c4State (some (Sum.inr "zzz")) 0 false).err
        = some PyErr.fileNotFound := by
  refine ⟨⟨rfl, rfl, rfl, by decide, rfl⟩, rfl⟩

/-- The state for the C7 failing input: one item, repeat OFF, current index
at the last position. -/
def c7State : QueueState :=
  { queue := { baseQueue with current_index := some (Sum.inl 0) },
    items := [itemA], prev_state := none }

/-- The empty-queue variant of the C7 failing input. -/
def c7Empty : QueueState :=
  { queue := baseQueue, items := [], prev_state := none }

/-- Claim C7 (code bug): with repeat OFF at the last index (and likewise on
an empty queue) next is not a silent no-op: get_next_index returns the
out-of-range successor (never None, so the is-None guard in next is
dead), play_index fails to resolve it and raises FileNotFoundError. -/
theorem c7_next_eval :
    ((next c7State).err = some PyErr.fileNotFound ∧ (next c7State).effects = [])
    ∧ ((next c7Empty).err = some PyErr.fileNotFound ∧ (next c7Empty).effects = []) := by
  refine ⟨⟨rfl, rfl⟩, ⟨rfl, rfl⟩⟩

/-- A radio seed fixture. -/
def seedM : MediaItem := mItem "seed" MediaType.playlist none

/-- A dynamically fetched track fixture. -/
def mX : MediaItem := mItem "x" MediaType.track (some 240)

/-- The state for the C10 failing input: two items and one radio seed. -/
def c10State : QueueState :=
  { queue := { baseQueue with radio_source := [seedM] },
    items := [itemA, itemB], prev_state := none }

/-- Claim C10 (code bug): with two existing items and one available fetched
track, the radio auto-fill loads at index length-1 through the defective
load, producing a one-item list (the last existing item and the fetched
track are both dropped) instead of appending the new track at the tail
after the existing items. -/
theorem c10_fill_radio_eval :
    (fill_radio_tracks c10State (fun l => l) (fun _ => [mX])).state.items = [itemA]
    ∧ (fill_radio_tracks c10State (fun l => l) (fun _ => [mX])).err = none
    ∧ (fill_radio_tracks c10State (fun l => l) (fun _ => [mX])).state.items
        ≠ [itemA, itemB, QueueItem.from_media_item mX] := by
  refine ⟨rfl, rfl, by decide⟩

/-- The state for the C5 counterexample: three items with index 1 already
buffered. -/
def c5State : QueueState :=
  { queue := { baseQueue with index_in_buffer := some (Sum.inl 1) },
    items := [itemA, itemB, itemC], prev_state := none }

/-- Claim C5 is false as stated: move_item targeting the item at index 0,
which is at or before index_in_buffer = 1, raises IndexError instead of
being a warning-only no-op (the item list is left unchanged); and
delete_item addressed by item id raises TypeError before any guard runs,
because it calls index_by_id without its required queue argument. -/
theorem c5_cex :
    (move_item c5State "a" 1).err = some PyErr.indexError
    ∧ (move_item c5State "a" 1).state = c5State
    ∧ (delete_item c5State (Sum.inr "c")).err = some PyErr.typeError := by
  refine ⟨rfl, rfl, rfl⟩

/-- Claim C5 as amended: delete_item targeting a numeric index at or before
a numeric index_in_buffer is a warning-only no-op that leaves the item
list unchanged; move_item targeting an item whose resolved index is at
or before that bound raises IndexError and likewise leaves the item
list unchanged. -/
theorem c5_guard_behaviour :
    (∀ (st : QueueState) (i b : ℕ), st.queue.index_in_buffer = some (Sum.inl b) →
      i ≤ b →
      delete_item st (Sum.inl i) =
        { state := st, effects := [Effect.warning], err := none })
    ∧ (∀ (st : QueueState) (iid : String) (idx b : ℕ) (shift : ℤ),
      index_by_id st.items iid = some idx →
      st.queue.index_in_buffer = some (Sum.inl b) → idx ≤ b →
      move_item st iid shift =
        { state := st, effects := [], err := some PyErr.indexError }) := by
  constructor
  · intro st i b hb hib
    simp [delete_item, hb, hib]
  · intro st iid idx b shift hidx hb hle
    simp [move_item, hidx, hb, hle]

/-- Witness for the amended C5: both guards evaluated at the concrete
three-item state with index 1 buffered. -/
theorem c5_guard_behaviour_witness :
    delete_item c5State (Sum.inl 0) =
      { state := c5State, effects := [Effect.warning], err := none }
    ∧ move_item c5State "a" 1 =
      { state := c5State, effects := [], err := some PyErr.indexError } :=
  ⟨c5_guard_behaviour.1 c5State 0 1 rfl (by decide),
   c5_guard_behaviour.2 c5State "a" 0 1 1 rfl rfl (by decide)⟩

/-- A radio-stream queue item with a known duration, for the C6
counterexample. -/
def radioItem : QueueItem :=
  { queue_item_id := "r", duration := some 100, sort_index := 0,
    media_item := mItem "r" MediaType.radio (some 100) }

/-- The state for the C6 counterexample: the current item is a radio item
with duration 100. -/
def c6State : QueueState :=
  { queue :=
      { baseQueue with
        current_index := some (Sum.inl 0),
        current_item := some radioItem },
    items := [radioItem], prev_state := none }

/-- Claim C6 is false as stated: an item is loaded, its duration 100 is
known, and the requested position 50 is strictly below it - every
precondition the claim lists holds - yet seek raises (an assertion
failure) and dispatches nothing, because the source also asserts that
the current item's media type is TRACK and this item is a radio item. -/
theorem c6_cex :
    seek c6State 50 =
      { state := c6State, effects := [], err := some PyErr.assertionError }
    ∧ c6State.queue.current_item = some radioItem
    ∧ radioItem.duration = some 100
    ∧ (50 : ℚ) < 100 := by
  refine ⟨rfl, rfl, rfl, by norm_num⟩

/-- Claim C6 as amended: seek raises an error (an assertion failure, the
code's InvalidSeek) and dispatches no transport command whenever any
precondition is violated - no item is loaded, the current item is not a
TRACK, it has no known nonzero duration, or the requested position is
not strictly below that duration - and when all of them hold it
performs play_index on the stored current index with the new offset. -/
theorem c6_seek_preconditions (st : QueueState) (position : ℚ) :
    (st.queue.current_item = none →
      seek st position =
        { state := st, effects := [], err := some PyErr.assertionError })
    ∧ (∀ ci, st.queue.current_item = some ci →
      ci.media_item.media_type ≠ MediaType.track →
      seek st position =
        { state := st, effects := [], err := some PyErr.assertionError })
    ∧ (∀ ci, st.queue.current_item = some ci →
      ci.media_item.media_type = MediaType.track →
      (ci.duration = none ∨ ci.duration = some 0) →
      seek st position =
        { state := st, effects := [], err := some PyErr.assertionError })
    ∧ (∀ ci d, st.queue.current_item = some ci →
      ci.media_item.media_type = MediaType.track →
      ci.duration = some d → ¬ position < (d : ℚ) →
      seek st position =
        { state := st, effects := [], err := some PyErr.assertionError })
    ∧ (∀ ci d, st.queue.current_item = some ci →
      ci.media_item.media_type = MediaType.track →
      ci.duration = some d → d ≠ 0 → position < (d : ℚ) →
      seek st position = play_index st st.queue.current_index position false) := by
  refine ⟨?_, ?_, ?_, ?_, ?_⟩
  · intro h
    simp [seek, h]
  · intro ci hci hmt
    simp [seek, hci, hmt]
  · intro ci hci hmt hdur
    rcases hdur with h | h <;> simp [seek, hci, hmt, h]
  · intro ci d hci hmt hd hpos
    by_cases hz : d = 0 <;> simp [seek, hci, hmt, hd, hz, hpos]
  · intro ci d hci hmt hd hz hpos
    simp [seek, hci, hmt, hd, hz, hpos]

/-- A track state for the C6 witness: current item a 200-second track at
index 0. -/
def c6TrackState : QueueState :=
  { queue :=
      { baseQueue with
        current_index := some (Sum.inl 0),
        current_item := some itemB },
    items := [itemB], prev_state := none }

/-- Witness for the amended C6: seeking to 190 inside the 200-second track
performs play_index on the stored index, and seeking past an empty
current item raises the assertion failure. -/
theorem c6_seek_preconditions_witness :
    seek c6TrackState 190 = play_index c6TrackState (some (Sum.inl 0)) 190 false
    ∧ seek { queue := baseQueue, items := [], prev_state := none } 5 =
      { state := { queue := baseQueue, items := [], prev_state := none },
        effects := [], err := some PyErr.assertionError } :=
  ⟨(c6_seek_preconditions c6TrackState 190).2.2.2.2 itemB 200 rfl rfl rfl
      (by decide) (by norm_num),
   (c6_seek_preconditions { queue := baseQueue, items := [], prev_state := none }
      5).1 rfl⟩

/-- Claim C3: resume follows the three-step resolution order. (1) When the
stored current item is more than 90 percent played (its stored elapsed
position exceeds 9/10 of its known nonzero duration) and a next item
exists, resume plays the next item from position 0 without fade-in.
(2) Else when no current index is set and the item list is non-empty,
resume plays item 0 from position 0. (3) Else resume plays the stored
current item at its stored elapsed position, snapped to 0 unless it
exceeds the 10-second threshold, with fade-in exactly when the resumed
position is positive. When no item can be selected it fails with
QueueEmpty. The resolution hypotheses state that the selected item's id
resolves back to that item in the queue's item list. -/
theorem c3_resume_resolution (st : QueueState)
    (hann : st.queue.announcement_in_progress = false) :
    (∀ ri nx d, st.queue.current_item = some ri → st.queue.next_item = some nx →
      ri.duration = some d → d ≠ 0 →
      st.queue.elapsed_time > (d : ℚ) * (9 / 10) →
      get_item st.items (some (Sum.inr nx.queue_item_id)) = some nx →
      (resume st).effects = [Effect.playMedia nx 0 false] ∧ (resume st).err = none)
    ∧ (∀ it0, resumeSkipCond st.queue = false →
      st.queue.current_index = none → st.items ≠ [] →
      get_item st.items (some (Sum.inl 0)) = some it0 →
      get_item st.items (some (Sum.inr it0.queue_item_id)) = some it0 →
      (resume st).effects = [Effect.playMedia it0 0 false] ∧ (resume st).err = none)
    ∧ (∀ ri, resumeSkipCond st.queue = false →
      ¬ (st.queue.current_index = none ∧ st.items ≠ []) →
      st.queue.current_item = some ri →
      get_item st.items (some (Sum.inr ri.queue_item_id)) = some ri →
      ((st.queue.elapsed_time > 10 →
        (resume st).effects = [Effect.playMedia ri st.queue.elapsed_time true]
          ∧ (resume st).err = none)
      ∧ (st.queue.elapsed_time ≤ 10 →
        (resume st).effects = [Effect.playMedia ri 0 false]
          ∧ (resume st).err = none)))
    ∧ (st.queue.current_item = none →
      ¬ (st.queue.current_index = none ∧ st.items ≠ []) →
      (resume st).err = some PyErr.queueEmpty ∧ (resume st).effects = []) := by
  refine ⟨?_, ?_, ?_, ?_⟩
  · intro ri nx d hci hnx hd hd0 hgt hres
    have hskip : resumeSkipCond st.queue = true := by
      simp [resumeSkipCond, hci, hnx, hd]
      exact ⟨hd0, hgt⟩
    simp [resume, hskip, hnx, play_index, hann, hres]
  · intro it0 hskip hcix hne h0 hres
    simp [resume, hskip, hcix, hne, h0, play_index, hann, hres]
  · intro ri hskip hnot hci hres
    constructor
    · intro hgt
      have h0 : st.queue.elapsed_time > 0 := lt_trans (by norm_num) hgt
      simp [resume, hskip, hnot, hci, hgt, h0, play_index, hann, hres]
    · intro hle
      have hngt : ¬ st.queue.elapsed_time > 10 := not_lt.mpr hle
      simp [resume, hskip, hnot, hci, hngt, play_index, hann, hres]
  · intro hci hnot
    have hskip : resumeSkipCond st.queue = false := by
      simp [resumeSkipCond, hci]
    simp [resume, hskip, hnot, hci]

/-- The state for the first C3 witness branch: current item 190 of 200
seconds played, a next item queued. -/
def c3SkipState : QueueState :=
  { queue :=
      { baseQueue with
        current_index := some (Sum.inl 0),
        current_item := some itemB,
        next_item := some itemC,
        elapsed_time := 190 },
    items := [itemB, itemC], prev_state := none }

/-- The state for the snap C3 witness branch: current item with 4 seconds
stored elapsed time. -/
def c3SnapState : QueueState :=
  { queue :=
      { baseQueue with
        current_index := some (Sum.inl 0),
        current_item := some itemA,
        elapsed_time := 4 },
    items := [itemA], prev_state := none }

/-- Witness for C3: with duration 200 and stored elapsed 190 (past 90
percent) and a next item present, resume plays the next item at
position 0 without fade-in; with stored elapsed 4 (below the 10-second
threshold) resume plays the current item snapped to position 0 without
fade-in. -/
theorem c3_resume_resolution_witness :
    ((resume c3SkipState).effects = [Effect.playMedia itemC 0 false]
      ∧ (resume c3SkipState).err = none)
    ∧ ((resume c3SnapState).effects = [Effect.playMedia itemA 0 false]
      ∧ (resume c3SnapState).err = none) :=
  ⟨(c3_resume_resolution c3SkipState rfl).1 itemB itemC 200 rfl rfl rfl
      (by decide) (by show (190 : ℚ) > ((200 : ℕ) : ℚ) * (9 / 10); norm_num) rfl,
   ((c3_resume_resolution c3SnapState rfl).2.2.1 itemA rfl (by decide) rfl
      rfl).2 (by show (4 : ℚ) ≤ 10; norm_num)⟩

/-- The field diff of a snapshot against itself is empty. -/
theorem queueDiff_self (q : PlayerQueue) : queueDiff q q = [] := by
  simp [queueDiff, fieldDiff]

/-- Whatever opu_emit decides to emit, it stores the recomputed queue and
the new snapshot. -/
theorem opu_emit_state (st : QueueState) (q : PlayerQueue) :
    (opu_emit st q).state = { st with queue := q, prev_state := some q } := by
  unfold opu_emit
  dsimp only
  repeat' split <;> try rfl

/-- Recomputing the queue projection from the state an error-free
recomputation produced, with the same player report and the same
wall-clock instant, recomputes the same queue. -/
theorem opu_compute_idem (st : QueueState) (p : Player) (now : ℚ)
    (q : PlayerQueue) (h : opu_compute st p now = (q, none)) :
    opu_compute { st with queue := q, prev_state := some q } p now = (q, none) := by
  unfold opu_compute at h ⊢
  dsimp only at h ⊢
  cases hA : pyIn ("/" ++ st.queue.queue_id ++ "/") p.current_url with
  | false =>
    rw [hA] at h
    simp only [Bool.false_eq_true, if_false] at h
    have hq : q = _ := (Prod.ext_iff.mp h).1.symm
    subst hq
    rw [show pyIn ("/" ++ st.queue.queue_id ++ "/") p.current_url = false from hA]
    simp only [Bool.false_eq_true, if_false]
  | true =>
    rw [hA] at h
    simp only [eq_self_iff_true, if_true] at h
    cases hgn : get_next_index st.queue.repeat_mode st.items
        st.queue.current_index false with
    | error e =>
      rw [hgn] at h
      dsimp only at h
      simp at h
    | ok ni =>
      rw [hgn] at h
      dsimp only at h
      have hq : q = _ := (Prod.ext_iff.mp h).1.symm
      subst hq
      rw [show pyIn ("/" ++ st.queue.queue_id ++ "/") p.current_url = true from hA]
      simp only [eq_self_iff_true, if_true]
      rw [hgn]

/-- A paused active player report for the C8 analysis; the stream url
carries the queue tag of baseQueue. -/
def c8Player : Player :=
  { player_id := "q1", display_name := "Q", available := true,
    elapsed_time := 30, elapsed_time_last_updated := 0,
    current_url := "http://host/q1/stream", state := PlayerState.paused }

/-- The registered queue state for the C8 analysis. -/
def c8State : QueueState :=
  { queue := { baseQueue with current_index := some (Sum.inl 0) },
    items := [itemA, itemB], prev_state := none }

/-- Claim C8 is false as stated: feeding the identical device report (same
reported state PAUSED, same elapsed time, same capture timestamp, same
url) a second time at a later wall-clock instant emits a QUEUE_UPDATED
event on the second pass, because the pass re-stamps
elapsed_time_last_updated with the evaluation time and the field diff
against the stored snapshot is therefore non-empty. -/
theorem c8_cex :
    (on_player_update c8State c8Player 0).err = none
    ∧ (on_player_update (on_player_update c8State c8Player 0).state c8Player 1).err
        = none
    ∧ (on_player_update (on_player_update c8State c8Player 0).state c8Player
        1).effects = [Effect.event EventType.queueUpdated]
    ∧ (on_player_update (on_player_update c8State c8Player 0).state c8Player
        1).effects ≠ [] := by
  refine ⟨rfl, rfl, rfl, by decide⟩

/-- Claim C8 as amended: reconciliation is idempotent when the second pass
runs at the same wall-clock instant as the first: after an error-free
on_player_update, running it again with the same player report and the
same evaluation time leaves the state unchanged and emits zero events. -/
theorem c8_reconcile_idempotent (st : QueueState) (p : Player) (now : ℚ)
    (h : (on_player_update st p now).err = none) :
    on_player_update ((on_player_update st p now).state) p now =
      { state := (on_player_update st p now).state, effects := [], err := none } := by
  rcases hc : opu_compute st p now with ⟨q, oe⟩
  cases oe with
  | some e =>
    rw [on_player_update, hc] at h
    simp at h
  | none =>
    have hres : on_player_update st p now = opu_emit st q := by
      rw [on_player_update, hc]
    rw [hres, opu_emit_state]
    rw [on_player_update, opu_compute_idem st p now q hc]
    unfold opu_emit
    dsimp only
    rw [show changedKeys ({ st with queue := q, prev_state := some q} :
        QueueState).prev_state q = [] from queueDiff_self q]
    rfl

/-- Witness for the amended C8: a second pass at the same instant over the
paused two-item state changes nothing and emits nothing. -/
theorem c8_reconcile_idempotent_witness :
    on_player_update ((on_player_update c8State c8Player 0).state) c8Player 0 =
      { state := (on_player_update c8State c8Player 0).state, effects := [],
        err := none } :=
  c8_reconcile_idempotent c8State c8Player 0 rfl

end MusicAssistant
